import Mathlib

/-!
Verification of the m5_soundfile library (m5_readsf~ / m5_writesf~ / m5_ftc_*
Pure Data externals) against its design specification.

The development shallowly embeds the relevant C functions:

* the FrameTimeCode split-integer representation and its conversions
  (src/src/m5_timeanchor.c),
* the loop-boundary calculator m5_loop_start_from_clock_time,
* the playback worker's fresh-FIFO seek computation, the END_AT_LOOP
  resolution and the refill-countdown initialisations (the m5_readsf~ /
  m5_writesf~ translation unit),
* the capture threshold scan and the message handlers m5_readsf_start and
  m5_readsf_open.

Machine integers (`long`, `ssize_t`) are modelled as `Int` with an explicit
wrap at 2^64 where C arithmetic can overflow; C truncated division and
remainder get their own definitions; the 32-bit `t_float` fields of a
FrameTimeCode always hold integer values in this code, and the one place the
float cast can lose information (the epoch field) is modelled by an exact
round-to-nearest-even function.  Host (Pd) logical-time instants are modelled
as rationals.
-/

/-! ### FrameTimeCode core (src/src/m5_timeanchor.c) -/

/-- The constant `#define FRAME_FLOAT_EPOCH 16777216` (2^24). -/
def FRAME_FLOAT_EPOCH : Int := 16777216

/-- Two's-complement wrap of a 64-bit signed value, the effect of C signed
overflow on the target ABI (`long` is 64 bits). -/
def wrap64 (x : Int) : Int := (x + 2 ^ 63) % 2 ^ 64 - 2 ^ 63

/-- C `labs` on a 64-bit `long`: the absolute value, which for INT64_MIN
wraps back to INT64_MIN. -/
def labs64 (x : Int) : Int := wrap64 x.natAbs

/-- C99 division on `long`: truncation toward zero. -/
def ctdiv (a b : Int) : Int := a.sign * b.sign * (a.natAbs / b.natAbs : Nat)

/-- C99 remainder on `long`: sign of the dividend, `a = (a/b)*b + a%b`. -/
def ctmod (a b : Int) : Int := a.sign * (a.natAbs % b.natAbs : Nat)

/-- Fuel-based floor of log2 (fuel 64 covers every 64-bit value); written
with structural recursion so that the kernel can evaluate it. -/
def lg2 : Nat → Nat → Nat
  | 0, _ => 0
  | fuel + 1, n => if n < 2 then 0 else lg2 fuel (n / 2) + 1

/-- Round-to-nearest-even of a nonnegative integer to IEEE-754 single
precision (24-bit significand): the exact value of the C cast
`(t_float) n` for `0 ≤ n < 2^63` (far below the f32 overflow threshold).
Integers up to 2^24 are exactly representable; above that the value is
rounded to the nearest multiple of `2 ^ (⌊log2 n⌋ - 23)`, ties to the even
quotient. -/
def roundF32 (n : Nat) : Nat :=
  if n ≤ 2 ^ 24 then n
  else
    let k := lg2 64 n - 23
    let q := n / 2 ^ k
    let r := n % 2 ^ k
    let half := 2 ^ (k - 1)
    if r < half then q * 2 ^ k
    else if half < r then (q + 1) * 2 ^ k
    else if q % 2 = 0 then q * 2 ^ k else (q + 1) * 2 ^ k

/-- The C cast `(t_float) x` for a signed integer: round the magnitude. -/
def roundF32Int (x : Int) : Int := x.sign * roundF32 x.natAbs

/-- Structure `t_m5FrameTimeCode`: three `t_float` fields.  In this code every stored
field is an integer value (±1, a rounded epoch, a remainder below 2^24), so
the fields are modelled as integers. -/
structure M5FrameTimeCode where
  sign : Int
  epoch : Int
  frames : Int
deriving DecidableEq

/-- Function `m5_frame_time_code_from_frames` (m5_timeanchor.c lines 88-96):

    long aframes = labs(frames);
    out->sign = frames < 0 ? -1.0 : 1.0;
    out->epoch = (t_float)(aframes / FRAME_FLOAT_EPOCH);
    out->frames  = (t_float)(aframes % FRAME_FLOAT_EPOCH);
-/
def m5_frame_time_code_from_frames (frames : Int) : M5FrameTimeCode :=
  let aframes := labs64 frames
  { sign := if frames < 0 then -1 else 1
    epoch := roundF32Int (ctdiv aframes FRAME_FLOAT_EPOCH)
    frames := roundF32Int (ctmod aframes FRAME_FLOAT_EPOCH) }

/-- Function `m5_frames_from_time_code` (m5_timeanchor.c lines 98-100):

    return (long)in->sign * ((long)in->epoch * FRAME_FLOAT_EPOCH + (long)in->frames);

Each C multiplication/addition on `long` wraps at 2^64; `wrap64` is a ring
congruence mod 2^64, so nesting a wrap around every operation equals the
single outer wraps written here. -/
def m5_frames_from_time_code (i : M5FrameTimeCode) : Int :=
  wrap64 (i.sign * wrap64 (i.epoch * FRAME_FLOAT_EPOCH + i.frames))

/-! ### Basic lemmas about the integer models -/

theorem wrap64_eq_self {x : Int} (h1 : -2 ^ 63 ≤ x) (h2 : x < 2 ^ 63) :
    wrap64 x = x := by
  unfold wrap64
  omega

theorem roundF32_id {n : Nat} (h : n ≤ 2 ^ 24) : roundF32 n = n := by
  unfold roundF32
  rw [if_pos h]

theorem roundF32Int_ofNat (n : Nat) : roundF32Int (n : Int) = roundF32 n := by
  unfold roundF32Int
  rw [Int.natAbs_ofNat]
  rcases Nat.eq_zero_or_pos n with h | h
  · subst h
    simp [roundF32_id]
  · have hn : (0 : Int) < n := by exact_mod_cast h
    rw [Int.sign_eq_one_of_pos hn, one_mul]

theorem ctdiv_ofNat (m k : Nat) : ctdiv (m : Int) (k : Int) = ((m / k : Nat) : Int) := by
  unfold ctdiv
  rw [Int.natAbs_ofNat, Int.natAbs_ofNat]
  rcases Nat.eq_zero_or_pos m with hm | hm
  · subst hm
    simp
  · rcases Nat.eq_zero_or_pos k with hk | hk
    · subst hk
      simp
    · have h1 : (0 : Int) < m := by exact_mod_cast hm
      have h2 : (0 : Int) < k := by exact_mod_cast hk
      rw [Int.sign_eq_one_of_pos h1, Int.sign_eq_one_of_pos h2]
      ring

theorem ctmod_ofNat (m k : Nat) : ctmod (m : Int) (k : Int) = ((m % k : Nat) : Int) := by
  unfold ctmod
  rw [Int.natAbs_ofNat, Int.natAbs_ofNat]
  rcases Nat.eq_zero_or_pos m with hm | hm
  · subst hm
    simp
  · have h1 : (0 : Int) < m := by exact_mod_cast hm
    rw [Int.sign_eq_one_of_pos h1, one_mul]

/-- The round trip evaluated on a nonnegative `long` below the first epoch
that single precision distorts. -/
theorem ftc_roundtrip_nat (m : Nat) (h : m < (2 ^ 24 + 1) * 2 ^ 24) :
    m5_frames_from_time_code (m5_frame_time_code_from_frames (m : Int)) = m := by
  have hm63 : (m : Int) < 2 ^ 63 := by
    have : ((2 ^ 24 + 1) * 2 ^ 24 : Nat) < 2 ^ 63 := by norm_num
    omega
  have habs : labs64 (m : Int) = (m : Int) := by
    unfold labs64
    rw [Int.natAbs_ofNat]
    exact wrap64_eq_self (by omega) hm63
  have hdivle : m / 16777216 ≤ 2 ^ 24 := by
    omega
  have hmodlt : m % 16777216 < 2 ^ 24 := by
    omega
  unfold m5_frame_time_code_from_frames m5_frames_from_time_code
  rw [habs]
  show wrap64 ((if (m : Int) < 0 then -1 else 1) *
      wrap64 (roundF32Int (ctdiv (m : Int) FRAME_FLOAT_EPOCH) * FRAME_FLOAT_EPOCH +
              roundF32Int (ctmod (m : Int) FRAME_FLOAT_EPOCH))) = m
  rw [if_neg (by omega)]
  unfold FRAME_FLOAT_EPOCH
  have hd : ctdiv (m : Int) 16777216 = ((m / 16777216 : Nat) : Int) := by
    exact_mod_cast ctdiv_ofNat m 16777216
  have hmo : ctmod (m : Int) 16777216 = ((m % 16777216 : Nat) : Int) := by
    exact_mod_cast ctmod_ofNat m 16777216
  rw [hd, hmo, roundF32Int_ofNat, roundF32Int_ofNat,
    roundF32_id hdivle, roundF32_id (Nat.le_of_lt hmodlt)]
  have hsum : ((m / 16777216 : Nat) : Int) * 16777216 + ((m % 16777216 : Nat) : Int)
      = (m : Int) := by
    omega
  rw [hsum, wrap64_eq_self (by omega) hm63, one_mul,
    wrap64_eq_self (by omega) hm63]

/-- Both conversion fields evaluated on the magnitude `m = |n|`: below the
first distorted epoch, splitting wraps nothing and rounding is exact. -/
theorem from_frames_eval (n : Int) (h : n.natAbs < (2 ^ 24 + 1) * 2 ^ 24) :
    m5_frame_time_code_from_frames n =
      { sign := if n < 0 then -1 else 1
        epoch := ((n.natAbs / 16777216 : Nat) : Int)
        frames := ((n.natAbs % 16777216 : Nat) : Int) } := by
  have hm63 : ((n.natAbs : Nat) : Int) < 2 ^ 63 := by
    have hlt : ((2 ^ 24 + 1) * 2 ^ 24 : Nat) < 2 ^ 63 := by norm_num
    omega
  have habs : labs64 n = ((n.natAbs : Nat) : Int) := by
    unfold labs64
    exact wrap64_eq_self (by omega) hm63
  have hdivle : n.natAbs / 16777216 ≤ 2 ^ 24 := by omega
  have hmodlt : n.natAbs % 16777216 < 2 ^ 24 := by omega
  unfold m5_frame_time_code_from_frames
  rw [habs]
  unfold FRAME_FLOAT_EPOCH
  have hd : ctdiv ((n.natAbs : Nat) : Int) 16777216
      = ((n.natAbs / 16777216 : Nat) : Int) := by
    exact_mod_cast ctdiv_ofNat n.natAbs 16777216
  have hmo : ctmod ((n.natAbs : Nat) : Int) 16777216
      = ((n.natAbs % 16777216 : Nat) : Int) := by
    exact_mod_cast ctmod_ofNat n.natAbs 16777216
  simp only [hd, hmo, roundF32Int_ofNat, roundF32_id hdivle,
    roundF32_id (Nat.le_of_lt hmodlt)]

/-- Claim C1 (amended).  Claim C1 states the round trip
`m5_frames_from_time_code ∘ m5_frame_time_code_from_frames = id` over the
whole signed 64-bit range.  That fails once the epoch `|n| div 2^24` stops
being exactly representable in the 32-bit float epoch field (first failure at
`|n| = (2^24 + 1) * 2^24`, see `c1_roundtrip_counterexample`).  Amended
statement: the round trip is the identity for every `n` with
`|n| < (2^24 + 1) * 2^24`. -/
theorem c1_roundtrip_amended (n : Int) (h : n.natAbs < (2 ^ 24 + 1) * 2 ^ 24) :
    m5_frames_from_time_code (m5_frame_time_code_from_frames n) = n := by
  have hm63 : ((n.natAbs : Nat) : Int) < 2 ^ 63 := by
    have hlt : ((2 ^ 24 + 1) * 2 ^ 24 : Nat) < 2 ^ 63 := by norm_num
    omega
  rw [from_frames_eval n h]
  unfold m5_frames_from_time_code FRAME_FLOAT_EPOCH
  have hsum : ((n.natAbs / 16777216 : Nat) : Int) * 16777216
      + ((n.natAbs % 16777216 : Nat) : Int) = ((n.natAbs : Nat) : Int) := by
    omega
  show wrap64 ((if n < 0 then -1 else 1) * wrap64 _) = n
  rw [hsum, wrap64_eq_self (by omega) hm63]
  by_cases hn : n < 0
  · rw [if_pos hn]
    have hneg : ((n.natAbs : Nat) : Int) = -n := by omega
    rw [hneg]
    have : (-1 : Int) * -n = n := by ring
    rw [this]
    exact wrap64_eq_self (by omega) (by omega)
  · rw [if_neg hn, one_mul]
    have hpos : ((n.natAbs : Nat) : Int) = n := by omega
    rw [hpos]
    exact wrap64_eq_self (by omega) (by omega)

/-- Claim C1 (counterexample).  At `n = (2^24 + 1) * 2^24 = 281474993487872`
the epoch `2^24 + 1` is rounded by the single-precision epoch field to
`2^24` (round-to-nearest-even), so the round trip returns `2^48` instead of
`n`: the claim is false as stated over the full i64 range. -/
theorem c1_roundtrip_counterexample :
    m5_frames_from_time_code (m5_frame_time_code_from_frames 281474993487872)
      ≠ 281474993487872 := by decide

/-- Witness for `c1_roundtrip_amended` at the concrete input `n = 2^48`. -/
theorem c1_roundtrip_amended_witness :
    (281474976710656 : Int).natAbs < (2 ^ 24 + 1) * 2 ^ 24 ∧
      m5_frames_from_time_code (m5_frame_time_code_from_frames 281474976710656)
        = 281474976710656 :=
  ⟨by decide, c1_roundtrip_amended 281474976710656 (by decide)⟩

/-! ### C2: the loop-boundary calculator (m5_timeanchor.c lines 145-167) -/

/-- Function `m5_loop_start_from_clock_time`.  The `double clock` parameter always
carries an integer frame count (an anchor's elapsed frames or a decoded FTC)
and is modelled as the integer produced by the C cast `(long)clock`.
`none` models the `return 1` error path.  Every C `long` addition,
subtraction and multiplication wraps at 2^64; since `wrap64` is a ring
congruence mod 2^64, one wrap per compound expression (plus one for the
separately computed product) gives the same value as wrapping each operation.

    long offset_frames = m5_frames_from_time_code(offset);
    long loop_frames = m5_frames_from_time_code(loop_length);
    long lclock = (long)clock - offset_frames;
    if (loop_frames < 0) return 1;
    if (loop_frames == 0) { out := from_frames(lclock + safety); return 0; }
    long now_frame = lclock % loop_frames;
    if (now_frame == 0) { out := from_frames(lclock + (offset_loops * loop_frames) + safety); return 0; }
    out := from_frames(lclock + loop_frames + offset_frames - now_frame
                       + (offset_loops * loop_frames) + safety);
-/
def m5_loop_start_from_clock_time (clock : Int) (offset loop_length : M5FrameTimeCode)
    (offset_loops safety : Int) : Option M5FrameTimeCode :=
  let offset_frames := m5_frames_from_time_code offset
  let loop_frames := m5_frames_from_time_code loop_length
  let lclock := wrap64 (clock - offset_frames)
  if loop_frames < 0 then none
  else if loop_frames = 0 then
    some (m5_frame_time_code_from_frames (wrap64 (lclock + safety)))
  else if ctmod lclock loop_frames = 0 then
    some (m5_frame_time_code_from_frames
      (wrap64 (lclock + wrap64 (offset_loops * loop_frames) + safety)))
  else
    some (m5_frame_time_code_from_frames
      (wrap64 (lclock + loop_frames + offset_frames - ctmod lclock loop_frames
        + wrap64 (offset_loops * loop_frames) + safety)))

/-- Modelled from the words of claim C2 / spec section 4.3: identical shape,
but with `r = clk mod ℓ` taken as the **Euclidean** remainder (Lean's `%` on
`Int`, always nonnegative) and with exact integer arithmetic. -/
def m5_loop_start_spec_euclid (clock : Int) (offset loop_length : M5FrameTimeCode)
    (offset_loops safety : Int) : Option M5FrameTimeCode :=
  let o := m5_frames_from_time_code offset
  let l := m5_frames_from_time_code loop_length
  let clk := clock - o
  if l < 0 then none
  else if l = 0 then some (m5_frame_time_code_from_frames (clk + safety))
  else if clk % l = 0 then
    some (m5_frame_time_code_from_frames (clk + offset_loops * l + safety))
  else
    some (m5_frame_time_code_from_frames
      (clk + l + o - clk % l + offset_loops * l + safety))

/-- The amended reading of claim C2: the same formulas with `r` the C
**truncated** remainder (sign of the dividend), which is what line 159 of
m5_timeanchor.c computes; for `clk ≥ 0` it coincides with the Euclidean
remainder. -/
def m5_loop_start_spec_trunc (clock : Int) (offset loop_length : M5FrameTimeCode)
    (offset_loops safety : Int) : Option M5FrameTimeCode :=
  let o := m5_frames_from_time_code offset
  let l := m5_frames_from_time_code loop_length
  let clk := clock - o
  if l < 0 then none
  else if l = 0 then some (m5_frame_time_code_from_frames (clk + safety))
  else if ctmod clk l = 0 then
    some (m5_frame_time_code_from_frames (clk + offset_loops * l + safety))
  else
    some (m5_frame_time_code_from_frames
      (clk + l + o - ctmod clk l + offset_loops * l + safety))

theorem ctmod_natAbs_lt {a b : Int} (hb : b ≠ 0) :
    (ctmod a b).natAbs < b.natAbs := by
  unfold ctmod
  have h1 : a.natAbs % b.natAbs < b.natAbs :=
    Nat.mod_lt _ (Int.natAbs_pos.mpr hb)
  have h2 : (a.sign * ((a.natAbs % b.natAbs : Nat) : Int)).natAbs
      = a.sign.natAbs * (a.natAbs % b.natAbs) := by
    rw [Int.natAbs_mul, Int.natAbs_ofNat]
  have hs : a.sign.natAbs ≤ 1 := by
    rw [Int.natAbs_sign]
    split <;> omega
  calc (a.sign * ((a.natAbs % b.natAbs : Nat) : Int)).natAbs
      = a.sign.natAbs * (a.natAbs % b.natAbs) := h2
    _ ≤ 1 * (a.natAbs % b.natAbs) := Nat.mul_le_mul_right _ hs
    _ < b.natAbs := by omega

/-- Claim C2 (amended).  Claim C2 describes `m5_loop_start_from_clock_time`
with a Euclidean remainder; the code takes the C truncated remainder
(`c2_loop_start_counterexample` shows the difference for a negative
offset-shifted clock).  Amended: with `r` the truncated remainder the
description is exact, and the calculator is invalid precisely when the loop
length decodes to a negative frame count.  The magnitude bounds keep every
64-bit intermediate below 2^63, where the C arithmetic cannot wrap. -/
theorem c2_loop_start_amended (clock : Int) (offset loop_length : M5FrameTimeCode)
    (offset_loops safety : Int)
    (hc : clock.natAbs ≤ 2 ^ 40)
    (ho : (m5_frames_from_time_code offset).natAbs ≤ 2 ^ 40)
    (hl : (m5_frames_from_time_code loop_length).natAbs ≤ 2 ^ 40)
    (hk : offset_loops.natAbs ≤ 2 ^ 20)
    (hs : safety.natAbs ≤ 2 ^ 40) :
    m5_loop_start_from_clock_time clock offset loop_length offset_loops safety
      = m5_loop_start_spec_trunc clock offset loop_length offset_loops safety
    ∧ (m5_loop_start_from_clock_time clock offset loop_length offset_loops safety = none
        ↔ m5_frames_from_time_code loop_length < 0) := by
  have hkl : (offset_loops * m5_frames_from_time_code loop_length).natAbs ≤ 2 ^ 60 := by
    rw [Int.natAbs_mul]
    calc offset_loops.natAbs * (m5_frames_from_time_code loop_length).natAbs
        ≤ 2 ^ 20 * 2 ^ 40 := Nat.mul_le_mul hk hl
      _ ≤ 2 ^ 60 := by norm_num
  have hw1 : wrap64 (clock - m5_frames_from_time_code offset)
      = clock - m5_frames_from_time_code offset :=
    wrap64_eq_self (by omega) (by omega)
  have hw2 : wrap64 (offset_loops * m5_frames_from_time_code loop_length)
      = offset_loops * m5_frames_from_time_code loop_length :=
    wrap64_eq_self (by omega) (by omega)
  constructor
  · unfold m5_loop_start_from_clock_time m5_loop_start_spec_trunc
    simp only [hw1, hw2]
    by_cases h1 : m5_frames_from_time_code loop_length < 0
    · rw [if_pos h1, if_pos h1]
    · rw [if_neg h1, if_neg h1]
      by_cases h2 : m5_frames_from_time_code loop_length = 0
      · rw [if_pos h2, if_pos h2,
          wrap64_eq_self (by omega) (by omega)]
      · rw [if_neg h2, if_neg h2]
        have hm := ctmod_natAbs_lt
          (a := clock - m5_frames_from_time_code offset) h2
        by_cases h3 : ctmod (clock - m5_frames_from_time_code offset)
            (m5_frames_from_time_code loop_length) = 0
        · rw [if_pos h3, if_pos h3,
            wrap64_eq_self (by omega) (by omega)]
        · rw [if_neg h3, if_neg h3,
            wrap64_eq_self (by omega) (by omega)]
  · unfold m5_loop_start_from_clock_time
    simp only [hw1, hw2]
    by_cases h1 : m5_frames_from_time_code loop_length < 0
    · simp [h1]
    · rw [if_neg h1]
      by_cases h2 : m5_frames_from_time_code loop_length = 0
      · simp [h2, h1]
      · rw [if_neg h2]
        by_cases h3 : ctmod (clock - m5_frames_from_time_code offset)
            (m5_frames_from_time_code loop_length) = 0
        · simp [h3, h1]
        · simp [h3, h1]

set_option maxRecDepth 100000 in
/-- Claim C2 (counterexample).  At `clock = 0`, offset `5`, loop length `4`,
displacement `0` and safety `0`, the offset-shifted clock is `-5`; the code's
truncated remainder is `-1`, yielding the boundary frame `5`, while the
claim's Euclidean remainder `3` would yield frame `1`: the claim is false as
stated. -/
theorem c2_loop_start_counterexample :
    m5_loop_start_from_clock_time 0 (m5_frame_time_code_from_frames 5)
        (m5_frame_time_code_from_frames 4) 0 0
      ≠ m5_loop_start_spec_euclid 0 (m5_frame_time_code_from_frames 5)
        (m5_frame_time_code_from_frames 4) 0 0 := by decide

/-- Witness for `c2_loop_start_amended`: the spec scenario with the anchor
at frame 23000 and a 12000-frame loop. -/
theorem c2_loop_start_amended_witness :
    ((23000 : Int).natAbs ≤ 2 ^ 40 ∧
      (m5_frames_from_time_code (m5_frame_time_code_from_frames 0)).natAbs ≤ 2 ^ 40 ∧
      (m5_frames_from_time_code (m5_frame_time_code_from_frames 12000)).natAbs ≤ 2 ^ 40 ∧
      (0 : Int).natAbs ≤ 2 ^ 20 ∧ (0 : Int).natAbs ≤ 2 ^ 40) ∧
    (m5_loop_start_from_clock_time 23000 (m5_frame_time_code_from_frames 0)
        (m5_frame_time_code_from_frames 12000) 0 0
      = m5_loop_start_spec_trunc 23000 (m5_frame_time_code_from_frames 0)
        (m5_frame_time_code_from_frames 12000) 0 0
    ∧ (m5_loop_start_from_clock_time 23000 (m5_frame_time_code_from_frames 0)
        (m5_frame_time_code_from_frames 12000) 0 0 = none
        ↔ m5_frames_from_time_code (m5_frame_time_code_from_frames 12000) < 0)) :=
  ⟨⟨by decide, by decide, by decide, by decide, by decide⟩,
    c2_loop_start_amended 23000 (m5_frame_time_code_from_frames 0)
      (m5_frame_time_code_from_frames 12000) 0 0
      (by decide) (by decide) (by decide) (by decide) (by decide)⟩

/-! ### C3: the playback worker's fresh-FIFO seek computation
(m5_readsf_child_main, part_000 lines 1600-1633) -/

/-- The `nextSeek` computed when the FIFO is fresh (`fifohead == fifotail == 0`),
including the "nudge" that wraps an exact loop-end seek back to the loop
start.  `x_m5HeadTimeRequest` and `x_m5PlayStartTime` are doubles holding
integer frame counts; the `size_t`/`off_t`/`ssize_t` quantities all stay far
below 2^63 for any real file, so the C signed/unsigned conversions are
value-preserving and the arithmetic is modelled exactly:

    double pst = x->x_m5PlayStartTime;
    if (pst < 0) pst = 0;
    byte_time = ((ssize_t)x->x_m5HeadTimeRequest - (ssize_t)pst) * (ssize_t)sf.sf_bytesperframe;
    if (byte_time >= 0)
        nextSeek = (byte_time % loop_length_bytes) + m5_initial_offset + loop_start_bytes;
    else
        nextSeek = loop_length_bytes - ((-1 * byte_time) % loop_length_bytes)
                   + m5_initial_offset + loop_start_bytes;
    if (nextSeek == loop_length_bytes + m5_initial_offset + loop_start_bytes)
        nextSeek = m5_initial_offset + loop_start_bytes;

(Both `%` operands are nonnegative in each branch, so C's truncated remainder
and the mathematical remainder coincide.) -/
def m5_next_seek_fresh (headTimeRequest playStartTime bytesperframe
    loop_length_bytes initial_offset loop_start_bytes : Int) : Int :=
  let pst := if playStartTime < 0 then 0 else playStartTime
  let byte_time := (headTimeRequest - pst) * bytesperframe
  let nextSeek :=
    if 0 ≤ byte_time then
      byte_time % loop_length_bytes + initial_offset + loop_start_bytes
    else
      loop_length_bytes - (-1 * byte_time) % loop_length_bytes
        + initial_offset + loop_start_bytes
  if nextSeek = loop_length_bytes + initial_offset + loop_start_bytes then
    initial_offset + loop_start_bytes
  else nextSeek

/-- Modelled from the words of claim C3: `byteTime = (headTimeRequest −
max(0, startTime)) × bytesPerFrame`, the two mod branches, and the wrap of a
seek equal to `initialOffset + loopStartBytes + loopBytes`. -/
def m5_next_seek_spec (headTimeRequest startTime bytesPerFrame loopBytes
    initialOffset loopStartBytes : Int) : Int :=
  let byteTime := (headTimeRequest - max 0 startTime) * bytesPerFrame
  let nextSeek :=
    if 0 ≤ byteTime then byteTime % loopBytes + initialOffset + loopStartBytes
    else loopBytes - (-byteTime) % loopBytes + initialOffset + loopStartBytes
  if nextSeek = initialOffset + loopStartBytes + loopBytes then
    initialOffset + loopStartBytes
  else nextSeek

/-- Claim C3 (confirmed).  When the FIFO is fresh, the worker's next seek
position is exactly the claim's formula, and consequently it always lands at
`initialOffset + loopStartBytes` plus the Euclidean remainder of `byteTime`
modulo `loopBytes` — the correct in-loop position, also for start times in
the past (negative `byteTime`).  The worker only reaches this computation
with a nonzero loop byte length (it fails with SOUNDFILE_M5_ERREMPTY first),
hence the hypothesis `0 < loopBytes`. -/
theorem c3_next_seek_fresh (headTimeRequest startTime bytesPerFrame loopBytes
    initialOffset loopStartBytes : Int) (hpos : 0 < loopBytes) :
    m5_next_seek_fresh headTimeRequest startTime bytesPerFrame loopBytes
        initialOffset loopStartBytes
      = m5_next_seek_spec headTimeRequest startTime bytesPerFrame loopBytes
        initialOffset loopStartBytes
    ∧ m5_next_seek_fresh headTimeRequest startTime bytesPerFrame loopBytes
        initialOffset loopStartBytes
      = initialOffset + loopStartBytes
        + ((headTimeRequest - max 0 startTime) * bytesPerFrame) % loopBytes := by
  have hmax : (if startTime < 0 then (0 : Int) else startTime) = max 0 startTime := by
    rcases le_or_lt 0 startTime with h | h
    · rw [if_neg (not_lt.mpr h), max_eq_right h]
    · rw [if_pos h, max_eq_left h.le]
  unfold m5_next_seek_fresh m5_next_seek_spec
  simp only [hmax, neg_one_mul]
  set bt := (headTimeRequest - max 0 startTime) * bytesPerFrame with hbt
  rcases le_or_lt 0 bt with hbtn | hbtn
  · rw [if_pos hbtn]
    have hm0 : 0 ≤ bt % loopBytes := Int.emod_nonneg bt (ne_of_gt hpos)
    have hm1 : bt % loopBytes < loopBytes := Int.emod_lt_of_pos bt hpos
    have hne : bt % loopBytes + initialOffset + loopStartBytes
        ≠ loopBytes + initialOffset + loopStartBytes := by omega
    have hne2 : bt % loopBytes + initialOffset + loopStartBytes
        ≠ initialOffset + loopStartBytes + loopBytes := by omega
    rw [if_neg hne, if_neg hne2]
    refine ⟨rfl, by ring⟩
  · rw [if_neg (not_le.mpr hbtn)]
    have hr0 : 0 ≤ (-bt) % loopBytes := Int.emod_nonneg (-bt) (ne_of_gt hpos)
    have hr1 : (-bt) % loopBytes < loopBytes := Int.emod_lt_of_pos (-bt) hpos
    have key : bt % loopBytes = (loopBytes - (-bt) % loopBytes) % loopBytes := by
      set r := (-bt) % loopBytes with hr
      set q := (-bt) / loopBytes with hq
      have e1 : bt = (loopBytes - r) + loopBytes * (-q - 1) := by
        rw [hr, hq]
        linear_combination Int.ediv_add_emod (-bt) loopBytes
      conv_lhs => rw [e1]
      rw [Int.add_mul_emod_self_left]
    rcases eq_or_ne ((-bt) % loopBytes) 0 with hz | hz
    · have hcond : loopBytes - (-bt) % loopBytes + initialOffset + loopStartBytes
          = loopBytes + initialOffset + loopStartBytes := by omega
      have hcond2 : loopBytes - (-bt) % loopBytes + initialOffset + loopStartBytes
          = initialOffset + loopStartBytes + loopBytes := by omega
      rw [if_pos hcond, if_pos hcond2]
      have : bt % loopBytes = 0 := by
        rw [key, hz, sub_zero, Int.emod_self]
      rw [this]
      exact ⟨rfl, by ring⟩
    · have hcond : loopBytes - (-bt) % loopBytes + initialOffset + loopStartBytes
          ≠ loopBytes + initialOffset + loopStartBytes := by omega
      have hcond2 : loopBytes - (-bt) % loopBytes + initialOffset + loopStartBytes
          ≠ initialOffset + loopStartBytes + loopBytes := by omega
      rw [if_neg hcond, if_neg hcond2]
      have : bt % loopBytes = loopBytes - (-bt) % loopBytes := by
        rw [key]
        exact Int.emod_eq_of_lt (by omega) (by omega)
      rw [this]
      exact ⟨rfl, by ring⟩

/-- Witness for `c3_next_seek_fresh`: a start time 3000 frames in the past
(headTimeRequest 5000, startTime 2000) with 4-byte frames, a 4000-byte loop,
a 44-byte header and a 100-byte loop start offset. -/
theorem c3_next_seek_fresh_witness :
    (0 : Int) < 4000 ∧
    (m5_next_seek_fresh 5000 2000 4 4000 44 100 = m5_next_seek_spec 5000 2000 4 4000 44 100
      ∧ m5_next_seek_fresh 5000 2000 4 4000 44 100
        = 44 + 100 + (((5000 : Int) - max 0 2000) * 4) % 4000) :=
  ⟨by decide, c3_next_seek_fresh 5000 2000 4 4000 44 100 (by decide)⟩

/-! ### C4: END_AT_LOOP resolution in the playback block callback
(m5_readsf_perform, part_000 lines 2110-2131) -/

/-- The sentinel `#define LOOP_SELF 0` stored in `x_m5LoopLength`. -/
def LOOP_SELF : Int := 0

/-- The END_AT_LOOP branch of `m5_readsf_perform`.  All quantities are
doubles / `size_t` holding integer frame counts (exact below 2^53) and the
C `floor` of the double quotient is the mathematical floor (`Int.fdiv`);
`loop_count` is an `int`, exact for any count below 2^31:

    int loop_count = 1;
    double loop_length = (double)x->x_m5LoopLength;
    if (x->x_m5LoopLength == LOOP_SELF)
        loop_length = (double)x->x_m5SoundFileFramesAvailableFromOnset;
    if (loop_length <= 0.)
        x->x_m5PlayEndTime = x->x_m5PlayStartTime;
    else {
        if (x->x_m5PlayStartTime <= blockStartTime)
            loop_count = floor((blockStartTime - x->x_m5PlayStartTime) / loop_length) + 1;
        x->x_m5PlayEndTime = x->x_m5PlayStartTime + loop_length * loop_count;
    }
-/
def m5_resolve_end_at_loop (playStartTime blockStartTime loopLengthSetting
    totalFrames : Int) : Int :=
  let loop_length := if loopLengthSetting = LOOP_SELF then totalFrames
    else loopLengthSetting
  if loop_length ≤ 0 then playStartTime
  else
    let loop_count := if playStartTime ≤ blockStartTime then
        Int.fdiv (blockStartTime - playStartTime) loop_length + 1
      else 1
    playStartTime + loop_length * loop_count

/-- Claim C4 (confirmed).  With `Lframes` the explicit loop length (or the
file's total available frames when the setting is LOOP_SELF), and
`Lframes > 0` (guaranteed at this program point: an explicit loop length is
validated positive and the total frame count has been checked nonzero
earlier in the same callback), the resolved end time is
`startTime + Lframes * k` with
`k = max 1 (⌊(blockStart − startTime) / Lframes⌋ + 1)` — the claim's
quotient-plus-one clamped to a minimum of one. -/
theorem c4_resolve_end_at_loop (playStartTime blockStartTime loopLengthSetting
    totalFrames : Int)
    (hpos : 0 < (if loopLengthSetting = LOOP_SELF then totalFrames
      else loopLengthSetting)) :
    m5_resolve_end_at_loop playStartTime blockStartTime loopLengthSetting totalFrames
      = playStartTime
        + (if loopLengthSetting = LOOP_SELF then totalFrames else loopLengthSetting)
          * max 1 (Int.fdiv
              (blockStartTime - playStartTime)
              (if loopLengthSetting = LOOP_SELF then totalFrames else loopLengthSetting)
            + 1) := by
  unfold m5_resolve_end_at_loop
  set L := if loopLengthSetting = LOOP_SELF then totalFrames else loopLengthSetting
    with hL
  simp only []
  rw [if_neg (not_le.mpr hpos)]
  rcases le_or_lt playStartTime blockStartTime with hle | hlt
  · rw [if_pos hle]
    have hq : 0 ≤ Int.fdiv (blockStartTime - playStartTime) L :=
      Int.fdiv_nonneg (by omega) hpos.le
    rw [max_eq_right (by omega)]
  · rw [if_neg (not_le.mpr hlt)]
    have hq : Int.fdiv (blockStartTime - playStartTime) L < 0 := by
      rw [Int.fdiv_eq_ediv _ hpos.le]
      exact Int.ediv_neg' (by omega) hpos
    rw [max_eq_left (by omega)]

/-- Witness for `c4_resolve_end_at_loop`: start time 5, block start 25,
explicit loop length 10 (total frames 999 unused): two loops already played,
so the end resolves to `5 + 10 * 3 = 35`. -/
theorem c4_resolve_end_at_loop_witness :
    (0 : Int) < (if (10 : Int) = LOOP_SELF then 999 else 10) ∧
    m5_resolve_end_at_loop 5 25 10 999
      = 5 + (if (10 : Int) = LOOP_SELF then 999 else 10)
          * max 1 (Int.fdiv ((25 : Int) - 5)
              (if (10 : Int) = LOOP_SELF then 999 else 10) + 1) :=
  ⟨by decide, c4_resolve_end_at_loop 5 25 10 999 (by decide)⟩

/-! ### C6: TimeAnchor elapsed frames (m5_timeanchor.c lines 67-81) -/

/-- Computable ceiling of a rational, `-((-q).num / (-q).den)`: the floor of
`-q` negated.  `qceil_eq_ceil` identifies it with Mathlib's ceiling; C's
`ceil` on a double is exact, so this models it faithfully. -/
def qceil (q : ℚ) : Int := -((-q).num / ((-q).den : Int))

theorem qceil_eq_ceil (q : ℚ) : qceil q = Int.ceil q := by
  unfold qceil
  rw [← Rat.floor_def, Int.floor_neg, neg_neg]

/-- The C conversion `(unsigned long) r` of an integral double value: defined
by C99 only for values in `[0, 2^64)`; `none` models the undefined behaviour
outside that range. -/
def castULong (r : Int) : Option Nat :=
  if 0 ≤ r ∧ r < 2 ^ 64 then some r.toNat else none

/-- Function `m5_time_anchor_get_starttime` (lines 67-73): lazily latch the host's
current logical time on first access.  The MARK_TIME_ANCHOR sentinel (-1.0)
is modelled by `none`; host instants are exact rationals.  Result: the value
read, paired with the updated stored field.

    if (x->x_starttime == MARK_TIME_ANCHOR)
        x->x_starttime = clock_getlogicaltime();
    return x->x_starttime;
-/
def m5_time_anchor_get_starttime (starttime : Option ℚ) (now : ℚ) :
    ℚ × Option ℚ :=
  match starttime with
  | none => (now, some now)
  | some t => (t, some t)

/-- Function `m5_time_anchor_get_time_since_start` (lines 75-81).  `timeSince s`
models the host call `clock_gettimesincewithunits(s, 1, 1)`: the logical
time elapsed since instant `s`, in sample frames.

    double start = m5_time_anchor_get_starttime(x);
    double r = ceil(clock_gettimesincewithunits(start, 1, 1));
    return (unsigned long) r;
-/
def m5_time_anchor_get_time_since_start (starttime : Option ℚ) (now : ℚ)
    (timeSince : ℚ → ℚ) : Option Nat × Option ℚ :=
  let s := m5_time_anchor_get_starttime starttime now
  (castULong (qceil (timeSince s.1)), s.2)

/-- Claim C6 (confirmed).  If the start time is unset it is set to the host's
current logical time `now`, and the function returns
`ceil(timeSince(startTime))` clamped to ≥ 0 as an unsigned integer.  The
hypotheses say the host-reported elapsed time has a nonnegative ceiling
below 2^64 — true of every host state this code can reach, since the start
instant never lies in the future; outside that range the C double→unsigned
conversion would be undefined. -/
theorem c6_time_anchor_elapsed (starttime : Option ℚ) (now : ℚ)
    (timeSince : ℚ → ℚ)
    (h0 : 0 ≤ qceil (timeSince (starttime.getD now)))
    (h1 : qceil (timeSince (starttime.getD now)) < 2 ^ 64) :
    m5_time_anchor_get_time_since_start starttime now timeSince
      = (some (max 0 (Int.ceil (timeSince (starttime.getD now)))).toNat,
         some (starttime.getD now)) := by
  rcases starttime with _ | t
  · simp only [Option.getD_none] at h0 h1 ⊢
    simp only [m5_time_anchor_get_time_since_start, m5_time_anchor_get_starttime,
      castULong]
    rw [if_pos ⟨h0, h1⟩, qceil_eq_ceil]
    rw [qceil_eq_ceil] at h0
    rw [max_eq_right h0]
  · simp only [Option.getD_some] at h0 h1 ⊢
    simp only [m5_time_anchor_get_time_since_start, m5_time_anchor_get_starttime,
      castULong]
    rw [if_pos ⟨h0, h1⟩, qceil_eq_ceil]
    rw [qceil_eq_ceil] at h0
    rw [max_eq_right h0]

/-- Witness for `c6_time_anchor_elapsed`: an unset anchor read at logical
time 5 with the identity elapsed-time function. -/
theorem c6_time_anchor_elapsed_witness :
    (0 ≤ qceil ((fun s : ℚ => s) ((none : Option ℚ).getD 5)) ∧
      qceil ((fun s : ℚ => s) ((none : Option ℚ).getD 5)) < 2 ^ 64) ∧
    m5_time_anchor_get_time_since_start none 5 (fun s : ℚ => s)
      = (some (max 0 (Int.ceil ((fun s : ℚ => s) ((none : Option ℚ).getD 5)))).toNat,
         some ((none : Option ℚ).getD 5)) :=
  ⟨⟨by decide, by decide⟩,
    c6_time_anchor_elapsed none 5 (fun s : ℚ => s) (by decide) (by decide)⟩

/-! ### C7: the refill-countdown period at its four (re)initialisation sites -/

/-- Worker OPEN handling, m5_readsf_child_main (part_000 lines 1564-1565):
`x->x_sigcountdown = x->x_sigperiod = (x->x_fifosize / (16 * sf.sf_bytesperframe * x->x_vecsize));` -/
def m5_readsf_child_open_sigperiod (fifosize bytesperframe vecsize : Nat) : Nat :=
  fifosize / (16 * bytesperframe * vecsize)

/-- m5_readsf_dsp (part_000 line 2560):
`x->x_sigperiod = x->x_fifosize / (x->x_sf.sf_bytesperframe * x->x_vecsize);`
— note: no factor 16 at this site. -/
def m5_readsf_dsp_sigperiod (fifosize bytesperframe vecsize : Nat) : Nat :=
  fifosize / (bytesperframe * vecsize)

/-- m5_writesf_open (part_000 lines 3325-3326):
`x->x_sigcountdown = x->x_sigperiod = (x->x_fifosize / (16 * (x->x_sf.sf_bytesperframe * x->x_vecsize)));` -/
def m5_writesf_open_sigperiod (fifosize bytesperframe vecsize : Nat) : Nat :=
  fifosize / (16 * (bytesperframe * vecsize))

/-- m5_writesf_dsp (part_000 lines 3337-3338):
`x->x_sigperiod = (x->x_fifosize / (16 * x->x_sf.sf_bytesperframe * x->x_vecsize));` -/
def m5_writesf_dsp_sigperiod (fifosize bytesperframe vecsize : Nat) : Nat :=
  fifosize / (16 * bytesperframe * vecsize)

/-- Claim C7 (counterexample).  At the playback object's dsp method the period
is `fifosize / (bytesPerFrame * blockFrames)` with no factor 16: with
fifosize 65536, 4-byte frames and 64-frame blocks it is 256, not the claimed
16. -/
theorem c7_sigperiod_counterexample :
    m5_readsf_dsp_sigperiod 65536 4 64 ≠ 65536 / (16 * 4 * 64) := by decide

/-- Claim C7 (amended).  The period equals
`fifosize / (16 * bytesPerFrame * blockFrames)` at three of the four
(re)initialisation sites — the playback worker's OPEN handling and the
capture object's open and dsp methods — but at the playback object's dsp
method the factor 16 is absent and the period is
`fifosize / (bytesPerFrame * blockFrames)`. -/
theorem c7_sigperiod_amended (fifosize bytesperframe vecsize : Nat) :
    m5_readsf_child_open_sigperiod fifosize bytesperframe vecsize
      = fifosize / (16 * bytesperframe * vecsize)
    ∧ m5_writesf_open_sigperiod fifosize bytesperframe vecsize
      = fifosize / (16 * bytesperframe * vecsize)
    ∧ m5_writesf_dsp_sigperiod fifosize bytesperframe vecsize
      = fifosize / (16 * bytesperframe * vecsize)
    ∧ m5_readsf_dsp_sigperiod fifosize bytesperframe vecsize
      = fifosize / (bytesperframe * vecsize) := by
  refine ⟨rfl, ?_, rfl, rfl⟩
  unfold m5_writesf_open_sigperiod
  rw [Nat.mul_assoc]

/-! ### C8: capture threshold start
(m5_find_threshold, part_000 lines 568-586, and the START_AT_THRESHOLD
branch of m5_writesf_perform, lines 2993-3009) -/

/-- Inner loop of `m5_find_threshold` over one channel vector: the index of
the first sample with `|x| ≥ threshold`, scanning frames in order.
`t_sample` values are IEEE floats whose order embeds exactly in ℚ, and
`fabs` is exact, so samples are modelled as rationals. -/
def m5_find_threshold_channel : List ℚ → ℚ → Option Nat
  | [], _ => none
  | x :: xs, threshold =>
    if threshold ≤ |x| then some 0
    else (m5_find_threshold_channel xs threshold).map (· + 1)

/-- Function `m5_find_threshold`: scan the channels in order (channel-major, exactly
as the C double loop with its early `return j`); `none` models the
`NOT_FOUND` return. -/
def m5_find_threshold : List (List ℚ) → ℚ → Option Nat
  | [], _ => none
  | c :: rest, threshold =>
    match m5_find_threshold_channel c threshold with
    | some j => some j
    | none => m5_find_threshold rest threshold

/-- The START_AT_THRESHOLD branch of `m5_writesf_perform`:

    started = m5_find_threshold(sf.sf_nchannels, vecsize, x->x_outvec, the_threshold);
    if (started != NOT_FOUND)
        x->x_m5PlayStartTime = blockStartTime + started - 0;

`some v` is the newly latched start time; `none` leaves the
START_AT_THRESHOLD sentinel unchanged. -/
def m5_writesf_threshold_start (blockStartTime : Nat) (vecs : List (List ℚ))
    (threshold : ℚ) : Option Nat :=
  match m5_find_threshold vecs threshold with
  | some started => some (blockStartTime + started)
  | none => none

theorem find_threshold_channel_eq_none_iff (c : List ℚ) (th : ℚ) :
    m5_find_threshold_channel c th = none ↔ ∀ x ∈ c, |x| < th := by
  induction c with
  | nil => simp [m5_find_threshold_channel]
  | cons x xs ih =>
    unfold m5_find_threshold_channel
    by_cases h : th ≤ |x|
    · rw [if_pos h]
      constructor
      · intro hc
        exact absurd hc (by simp)
      · intro hall
        exact absurd (hall x (List.mem_cons_self x xs)) (not_lt.mpr h)
    · rw [if_neg h]
      constructor
      · intro hc
        have hxs : m5_find_threshold_channel xs th = none := by
          cases hh : m5_find_threshold_channel xs th with
          | none => rfl
          | some j => rw [hh] at hc; simp at hc
        intro y hy
        rcases List.mem_cons.mp hy with rfl | hy2
        · exact not_le.mp h
        · exact (ih.mp hxs) y hy2
      · intro hall
        have hxs : m5_find_threshold_channel xs th = none :=
          ih.mpr (fun y hy => hall y (List.mem_cons_of_mem _ hy))
        rw [hxs]
        rfl

theorem find_threshold_channel_eq_some {c : List ℚ} {th : ℚ} {t : Nat}
    (h : m5_find_threshold_channel c th = some t) :
    t < c.length ∧ th ≤ |c.getD t 0| ∧ ∀ j < t, |c.getD j 0| < th := by
  induction c generalizing t with
  | nil => simp [m5_find_threshold_channel] at h
  | cons x xs ih =>
    unfold m5_find_threshold_channel at h
    by_cases hx : th ≤ |x|
    · rw [if_pos hx] at h
      have ht : t = 0 := by
        have := Option.some.inj h
        omega
      subst ht
      refine ⟨by simp, by simpa using hx, ?_⟩
      intro j hj
      omega
    · rw [if_neg hx] at h
      cases hh : m5_find_threshold_channel xs th with
      | none => rw [hh] at h; simp at h
      | some j =>
        rw [hh] at h
        simp only [Option.map_some'] at h
        have ht : t = j + 1 := (Option.some.inj h).symm
        subst ht
        obtain ⟨h1, h2, h3⟩ := ih hh
        refine ⟨by simpa using Nat.succ_lt_succ h1, by simpa using h2, ?_⟩
        intro i hi
        cases i with
        | zero => simpa using not_le.mp hx
        | succ i2 => simpa using h3 i2 (by omega)

theorem find_threshold_eq_none_iff (vecs : List (List ℚ)) (th : ℚ) :
    m5_find_threshold vecs th = none ↔ ∀ c ∈ vecs, ∀ x ∈ c, |x| < th := by
  induction vecs with
  | nil => simp [m5_find_threshold]
  | cons c rest ih =>
    unfold m5_find_threshold
    cases hh : m5_find_threshold_channel c th with
    | some j =>
      constructor
      · intro hc
        simp at hc
      · intro hall
        have := (find_threshold_channel_eq_none_iff c th).mpr
          (hall c (List.mem_cons_self c rest))
        rw [this] at hh
        cases hh
    | none =>
      constructor
      · intro hc
        intro c2 hc2
        rcases List.mem_cons.mp hc2 with rfl | hc3
        · exact (find_threshold_channel_eq_none_iff c2 th).mp hh
        · exact (ih.mp hc) c2 hc3
      · intro hall
        exact ih.mpr (fun c2 hc2 => hall c2 (List.mem_cons_of_mem _ hc2))

theorem find_threshold_eq_some {vecs : List (List ℚ)} {th : ℚ} {t : Nat}
    (h : m5_find_threshold vecs th = some t) :
    ∃ pre c post, vecs = pre ++ c :: post
      ∧ (∀ c2 ∈ pre, ∀ x ∈ c2, |x| < th)
      ∧ t < c.length ∧ th ≤ |c.getD t 0| ∧ ∀ j < t, |c.getD j 0| < th := by
  induction vecs with
  | nil => simp [m5_find_threshold] at h
  | cons c rest ih =>
    unfold m5_find_threshold at h
    cases hh : m5_find_threshold_channel c th with
    | some j =>
      rw [hh] at h
      have hj : j = t := Option.some.inj h
      subst hj
      exact ⟨[], c, rest, rfl, by simp, find_threshold_channel_eq_some hh⟩
    | none =>
      rw [hh] at h
      obtain ⟨pre, c2, post, heq, hpre, hrest⟩ := ih h
      refine ⟨c :: pre, c2, post, by rw [heq]; rfl, ?_, hrest⟩
      intro c3 hc3
      rcases List.mem_cons.mp hc3 with rfl | hc4
      · exact (find_threshold_channel_eq_none_iff c3 th).mp hh
      · exact hpre c3 hc4

/-- Claim C8 (confirmed).  In the capture block callback with the
START_AT_THRESHOLD sentinel: if no sample in the block reaches the
threshold, the sentinel is left unchanged (`none`); and if some sample has
`|x| ≥ threshold`, the start time becomes `blockStart + t` where `t` is the
frame offset of the first qualifying sample in scan order — the first
channel that contains one, at its least qualifying frame index, every
earlier frame of that channel being below the threshold. -/
theorem c8_threshold_start (blockStartTime : Nat) (vecs : List (List ℚ))
    (threshold : ℚ) :
    ((∀ c ∈ vecs, ∀ x ∈ c, |x| < threshold) →
      m5_writesf_threshold_start blockStartTime vecs threshold = none)
    ∧ ((∃ c ∈ vecs, ∃ x ∈ c, threshold ≤ |x|) →
      ∃ t, m5_writesf_threshold_start blockStartTime vecs threshold
          = some (blockStartTime + t)
        ∧ ∃ pre c post, vecs = pre ++ c :: post
          ∧ (∀ c2 ∈ pre, ∀ x ∈ c2, |x| < threshold)
          ∧ t < c.length ∧ threshold ≤ |c.getD t 0|
          ∧ ∀ j < t, |c.getD j 0| < threshold) := by
  constructor
  · intro hall
    unfold m5_writesf_threshold_start
    rw [(find_threshold_eq_none_iff vecs threshold).mpr hall]
  · intro hex
    cases hh : m5_find_threshold vecs threshold with
    | none =>
      exfalso
      obtain ⟨c, hc, x, hx, hth⟩ := hex
      exact absurd ((find_threshold_eq_none_iff vecs threshold).mp hh c hc x hx)
        (not_lt.mpr hth)
    | some t =>
      refine ⟨t, ?_, find_threshold_eq_some hh⟩
      unfold m5_writesf_threshold_start
      rw [hh]

/-- Witness for `c8_threshold_start`: block start 10, channels
`[[0, 2], [3]]`, threshold 1 — the hit is frame 1 of channel 0. -/
theorem c8_threshold_start_witness :
    (∃ c ∈ [[(0 : ℚ), 2], [3]], ∃ x ∈ c, (1 : ℚ) ≤ |x|) ∧
    (∃ t, m5_writesf_threshold_start 10 [[(0 : ℚ), 2], [3]] 1 = some (10 + t)
      ∧ ∃ pre c post, [[(0 : ℚ), 2], [3]] = pre ++ c :: post
        ∧ (∀ c2 ∈ pre, ∀ x ∈ c2, |x| < (1 : ℚ))
        ∧ t < c.length ∧ (1 : ℚ) ≤ |c.getD t 0|
        ∧ ∀ j < t, |c.getD j 0| < (1 : ℚ)) :=
  ⟨by decide, (c8_threshold_start 10 [[(0 : ℚ), 2], [3]] 1).2 (by decide)⟩

/-! ### C9 / C10: the playback object's `start` and `open` message handlers
(m5_readsf_start, part_000 lines 2263-2305; m5_readsf_open, lines 2469-2552) -/

/-- Values of `t_soundfile_request`. -/
def REQUEST_NOTHING : Nat := 0
def REQUEST_OPEN : Nat := 1
def REQUEST_CLOSE : Nat := 2
def REQUEST_QUIT : Nat := 3
def REQUEST_BUSY : Nat := 4

/-- Values of `t_soundfile_state`. -/
def STATE_IDLE : Nat := 0
def STATE_STARTUP : Nat := 1
def STATE_STREAM : Nat := 2
def STATE_STARTUP_2 : Nat := 3
def STATE_IDLE_2 : Nat := 4
def STATE_STREAM_JUST_STARTING : Nat := 5

/-- The sentinel `#define START_NOW -1.` in the double `x_m5PlayStartTime`
(every non-sentinel value stored there is a nonnegative integer frame
count, so the integer model is faithful). -/
def START_NOW : Int := -1

/-- The sentinel `#define END_AT_LOOP -1.` in `x_m5PlayEndTime`. -/
def END_AT_LOOP : Int := -1

/-- The fields of `t_readsf` (the m5_readsf~ instance struct) that the
message handlers embedded here read or write.  Host-only fields (canvas,
clocks, outlets, pthread objects, namelist, the open file descriptor and the
codec type pointer) are omitted; `x_m5LocalTimeAnchor` is a host logical
instant, modelled as a rational. -/
structure ReadsfState where
  state : Nat                 -- x_state
  requestcode : Nat           -- x_requestcode
  filename : String           -- x_filename
  fifohead : Int              -- x_fifohead
  fifotail : Int              -- x_fifotail
  eof : Bool                  -- x_eof
  fileerror : Int             -- x_fileerror
  framesAvailable : Int       -- x_m5SoundFileFramesAvailableFromOnset
  headTimeRequest : Int       -- x_m5HeadTimeRequest
  tailTime : Int              -- x_m5TailTime
  playStartTime : Int         -- x_m5PlayStartTime
  playEndTime : Int           -- x_m5PlayEndTime
  loopLength : Int            -- x_m5LoopLength (0 = LOOP_SELF)
  loopLengthRequest : Bool    -- x_m5LoopLengthRequest
  loopStart : Int             -- x_m5LoopStart
  timeAnchorName : Option String  -- x_m5TimeAnchorName
  timeAnchor : Option String  -- x_m5TimeAnchor (the bound anchor identity)
  localTimeAnchor : ℚ         -- x_m5LocalTimeAnchor
  onsetframes : Int           -- x_onsetframes
  bigendian : Bool            -- x_sf.sf_bigendian
  headersize : Int            -- x_sf.sf_headersize
  nchannels : Int             -- x_sf.sf_nchannels
  bytespersample : Int        -- x_sf.sf_bytespersample
  bytesperframe : Int         -- x_sf.sf_bytesperframe
  bytelimit : Int             -- x_sf.sf_bytelimit
deriving DecidableEq

/-- The `pd_error` calls a handler can report. -/
inductive ReadsfError
  | noPriorOpen   -- "start requested with no prior 'open'"
  | negativeStart -- "start time must be >= 0 frames."
deriving DecidableEq

/-- Function `m5_readsf_start` (lines 2263-2305).  `args = none` models the bare
`start` message (argc == 0); `args = some ftc` a successfully parsed
three-float FTC argument (a malformed list is rejected earlier by
m5_frame_time_code_from_atoms, also without touching the state).  `now`
models `clock_getlogicaltime()`.  Returns the updated state and the error
reported, if any. -/
def m5_readsf_start (x : ReadsfState) (args : Option M5FrameTimeCode)
    (now : ℚ) : ReadsfState × Option ReadsfError :=
  if x.state ≠ STATE_STARTUP ∧ x.state ≠ STATE_STARTUP_2 then
    (x, some ReadsfError.noPriorOpen)
  else
    match args with
    | none =>
      ({ x with loopLengthRequest := true
                state := STATE_STREAM
                playStartTime := START_NOW
                localTimeAnchor := now }, none)
    | some ftc =>
      if m5_frames_from_time_code ftc < 0 then
        (x, some ReadsfError.negativeStart)
      else
        ({ x with loopLengthRequest := true
                  state := STATE_STREAM
                  playStartTime := m5_frames_from_time_code ftc
                  localTimeAnchor := now }, none)

/-- Claim C9 (confirmed).  A `start` message whose FTC decodes to a negative
frame count is rejected: some error is reported synchronously (the
negative-start error when a file is armed, the no-prior-open error
otherwise) and the returned state is exactly the prior state — state enum,
start time, end time and loop-change request flag included. -/
theorem c9_start_negative_rejected (x : ReadsfState) (ftc : M5FrameTimeCode)
    (now : ℚ) (h : m5_frames_from_time_code ftc < 0) :
    (m5_readsf_start x (some ftc) now).1 = x
    ∧ (m5_readsf_start x (some ftc) now).2.isSome = true := by
  unfold m5_readsf_start
  by_cases hs : x.state ≠ STATE_STARTUP ∧ x.state ≠ STATE_STARTUP_2
  · rw [if_pos hs]
    exact ⟨rfl, rfl⟩
  · rw [if_neg hs]
    simp [if_pos h]

/-- A concrete armed instance (the state after `open` has put the stream
into STATE_STARTUP), used by the handler witnesses. -/
def armedReadsfState : ReadsfState where
  state := STATE_STARTUP
  requestcode := REQUEST_OPEN
  filename := "sample.wav"
  fifohead := 0
  fifotail := 0
  eof := false
  fileerror := 0
  framesAvailable := 0
  headTimeRequest := 0
  tailTime := 0
  playStartTime := START_NOW
  playEndTime := END_AT_LOOP
  loopLength := 3000
  loopLengthRequest := false
  loopStart := 200
  timeAnchorName := some "anchor1"
  timeAnchor := some "anchor1"
  localTimeAnchor := 0
  onsetframes := 0
  bigendian := false
  headersize := -1
  nchannels := 2
  bytespersample := 2
  bytesperframe := 4
  bytelimit := 0

set_option maxRecDepth 100000 in
/-- Witness for `c9_start_negative_rejected`: the FTC of -3 frames
(sign -1, epoch 0, frames 3) against the armed instance. -/
theorem c9_start_negative_rejected_witness :
    m5_frames_from_time_code (m5_frame_time_code_from_frames (-3)) < 0 ∧
    ((m5_readsf_start armedReadsfState
        (some (m5_frame_time_code_from_frames (-3))) 0).1 = armedReadsfState
      ∧ (m5_readsf_start armedReadsfState
          (some (m5_frame_time_code_from_frames (-3))) 0).2.isSome = true) :=
  ⟨by decide, c9_start_negative_rejected armedReadsfState
    (m5_frame_time_code_from_frames (-3)) 0 (by decide)⟩

/-- The message arguments of `open [flags] filename [onsetframes
[headersize [channels [bytespersample [endianness]]]]]` after the flag loop:
`flagsOk = false` models an unknown `-flag` (the `goto usage` path, taken
before any state is touched); the numeric arguments are `t_float`s holding
integer values (`atom_getfloatarg` returns 0 for absent arguments), and
`endian` is the first character of the endianness symbol (`none` = absent /
empty). -/
structure ReadsfOpenArgs where
  flagsOk : Bool
  filename : String
  onsetframes : Int
  headersize : Int
  nchannels : Int
  bytespersample : Int
  endian : Option Char
deriving DecidableEq

/-- Function `m5_readsf_open` (part_000 lines 2469-2552), the state mutation under
the mutex.  `hostBigEndian` models `m5_sys_isbigendian()`.  An unknown flag
or an empty filename returns before touching any field.  The namelist /
verbose-printout handling and the codec type pointer (`sf_type`) are
host-side and elided; `m5_soundfile_clear` precedes the field assignments
below, and every claim-relevant field it clears is overwritten here.

    m5_soundfile_clear(&x->x_sf);
    x->x_requestcode = REQUEST_OPEN;
    x->x_filename = filesym->s_name;
    x->x_fifotail = 0;
    x->x_fifohead = 0;
    ... sf_bigendian / x_onsetframes / sf_headersize / sf_nchannels /
        sf_bytespersample / sf_bytesperframe / sf_bytelimit ...
    x->x_eof = 0;
    x->x_m5SoundFileFramesAvailableFromOnset = 0;
    x->x_fileerror = 0;
    x->x_m5HeadTimeRequest = x->x_m5TailTime = 0;
    x->x_m5PlayStartTime = START_NOW;
    x->x_m5PlayEndTime = END_AT_LOOP;
    x->x_state = STATE_STARTUP;
-/
def m5_readsf_open (x : ReadsfState) (a : ReadsfOpenArgs)
    (hostBigEndian : Bool) : ReadsfState :=
  if a.flagsOk = false then x
  else if a.filename = "" then x
  else
    { x with
      requestcode := REQUEST_OPEN
      filename := a.filename
      fifotail := 0
      fifohead := 0
      bigendian :=
        match a.endian with
        | some c => if c = 'b' then true else if c = 'l' then false
            else false  -- bad endian char: error reported, sf_bigendian keeps the cleared value 0
        | none => hostBigEndian
      onsetframes := if a.onsetframes > 0 then a.onsetframes else 0
      headersize := if a.headersize > 0 then a.headersize
        else if a.headersize = 0 then -1 else 0
      nchannels := if a.nchannels ≥ 1 then a.nchannels else 1
      bytespersample := if a.bytespersample > 2 then a.bytespersample else 2
      bytesperframe := (if a.nchannels ≥ 1 then a.nchannels else 1)
        * (if a.bytespersample > 2 then a.bytespersample else 2)
      bytelimit := 0
      eof := false
      framesAvailable := 0
      fileerror := 0
      headTimeRequest := 0
      tailTime := 0
      playStartTime := START_NOW
      playEndTime := END_AT_LOOP
      state := STATE_STARTUP }

/-- Claim C10 (confirmed).  Every accepted `open` (valid flags and a nonempty
filename) resets the schedule and transfer state — start time to START_NOW,
end time to END_AT_LOOP, FIFO head/tail, the EOF flag, the file-error slot,
the head/tail times and the frames-available report all cleared — while the
loop length, the loop start offset and the time-anchor binding keep their
prior values. -/
theorem c10_open_resets_schedule (x : ReadsfState) (a : ReadsfOpenArgs)
    (hostBigEndian : Bool) (hflags : a.flagsOk = true) (hname : a.filename ≠ "") :
    (m5_readsf_open x a hostBigEndian).playStartTime = START_NOW
    ∧ (m5_readsf_open x a hostBigEndian).playEndTime = END_AT_LOOP
    ∧ (m5_readsf_open x a hostBigEndian).fifohead = 0
    ∧ (m5_readsf_open x a hostBigEndian).fifotail = 0
    ∧ (m5_readsf_open x a hostBigEndian).eof = false
    ∧ (m5_readsf_open x a hostBigEndian).fileerror = 0
    ∧ (m5_readsf_open x a hostBigEndian).headTimeRequest = 0
    ∧ (m5_readsf_open x a hostBigEndian).tailTime = 0
    ∧ (m5_readsf_open x a hostBigEndian).framesAvailable = 0
    ∧ (m5_readsf_open x a hostBigEndian).loopLength = x.loopLength
    ∧ (m5_readsf_open x a hostBigEndian).loopStart = x.loopStart
    ∧ (m5_readsf_open x a hostBigEndian).timeAnchorName = x.timeAnchorName
    ∧ (m5_readsf_open x a hostBigEndian).timeAnchor = x.timeAnchor := by
  unfold m5_readsf_open
  rw [if_neg (by simp [hflags]), if_neg hname]
  exact ⟨rfl, rfl, rfl, rfl, rfl, rfl, rfl, rfl, rfl, rfl, rfl, rfl, rfl⟩

set_option maxRecDepth 100000 in
/-- Witness for `c10_open_resets_schedule`: `open other.wav` against the
armed instance (whose loop length 3000, loop start 200 and anchor binding
must survive). -/
theorem c10_open_resets_schedule_witness :
    ((⟨true, "other.wav", 0, 0, 0, 0, none⟩ : ReadsfOpenArgs).flagsOk = true ∧
      (⟨true, "other.wav", 0, 0, 0, 0, none⟩ : ReadsfOpenArgs).filename ≠ "") ∧
    ((m5_readsf_open armedReadsfState ⟨true, "other.wav", 0, 0, 0, 0, none⟩
        false).playStartTime = START_NOW
      ∧ (m5_readsf_open armedReadsfState ⟨true, "other.wav", 0, 0, 0, 0, none⟩
          false).playEndTime = END_AT_LOOP
      ∧ (m5_readsf_open armedReadsfState ⟨true, "other.wav", 0, 0, 0, 0, none⟩
          false).fifohead = 0
      ∧ (m5_readsf_open armedReadsfState ⟨true, "other.wav", 0, 0, 0, 0, none⟩
          false).fifotail = 0
      ∧ (m5_readsf_open armedReadsfState ⟨true, "other.wav", 0, 0, 0, 0, none⟩
          false).eof = false
      ∧ (m5_readsf_open armedReadsfState ⟨true, "other.wav", 0, 0, 0, 0, none⟩
          false).fileerror = 0
      ∧ (m5_readsf_open armedReadsfState ⟨true, "other.wav", 0, 0, 0, 0, none⟩
          false).headTimeRequest = 0
      ∧ (m5_readsf_open armedReadsfState ⟨true, "other.wav", 0, 0, 0, 0, none⟩
          false).tailTime = 0
      ∧ (m5_readsf_open armedReadsfState ⟨true, "other.wav", 0, 0, 0, 0, none⟩
          false).framesAvailable = 0
      ∧ (m5_readsf_open armedReadsfState ⟨true, "other.wav", 0, 0, 0, 0, none⟩
          false).loopLength = armedReadsfState.loopLength
      ∧ (m5_readsf_open armedReadsfState ⟨true, "other.wav", 0, 0, 0, 0, none⟩
          false).loopStart = armedReadsfState.loopStart
      ∧ (m5_readsf_open armedReadsfState ⟨true, "other.wav", 0, 0, 0, 0, none⟩
          false).timeAnchorName = armedReadsfState.timeAnchorName
      ∧ (m5_readsf_open armedReadsfState ⟨true, "other.wav", 0, 0, 0, 0, none⟩
          false).timeAnchor = armedReadsfState.timeAnchor) :=
  ⟨⟨by decide, by decide⟩,
    c10_open_resets_schedule armedReadsfState ⟨true, "other.wav", 0, 0, 0, 0, none⟩
      false (by decide) (by decide)⟩
